import Mathlib

/-!
Verification development for the `allm` library: a shallow embedding of
the backend dispatcher (`src/client.rs`), the failover module
(`src/failover.rs`) and the Mistral provider adapter
(`src/providers/mistral.rs`), with theorems about the command handlers,
the key store, the failover cursor and the adapter's key resolution.

Rust `HashMap` values are modelled as association lists where `insert`
prepends and lookup takes the first (most recent) match: this has the
same observable lookup behaviour as the hash map.  Network I/O performed
by the adapter is modelled by an explicit oracle (`NetResult`) describing
the outcome of the HTTP exchange.
-/

namespace Allm

/-- The `Provider` enum from `src/lib.rs`: the closed set of supported
LLM providers. -/
inductive Provider
  | MistralAi
  | OpenAI
  | Anthropic
  | Google
  | Meta
  | PerplexityAi
  | Xai
  | Ai21Studio
  | Alibaba
  | HuggingFaceInterface
  | Groq
  | CloudflareAi
  | TogetherAi
  | Cerebras
  | OpenRouter
  | FireworksAi
  | Replicate
  | Local
deriving DecidableEq, Repr

/-- The string produced by Rust's derived `Debug` formatting
`format!("{:?}", provider)` used in the dispatcher's
provider-not-implemented reply. -/
def Provider.name : Provider → String
  | .MistralAi => "MistralAi"
  | .OpenAI => "OpenAI"
  | .Anthropic => "Anthropic"
  | .Google => "Google"
  | .Meta => "Meta"
  | .PerplexityAi => "PerplexityAi"
  | .Xai => "Xai"
  | .Ai21Studio => "Ai21Studio"
  | .Alibaba => "Alibaba"
  | .HuggingFaceInterface => "HuggingFaceInterface"
  | .Groq => "Groq"
  | .CloudflareAi => "CloudflareAi"
  | .TogetherAi => "TogetherAi"
  | .Cerebras => "Cerebras"
  | .OpenRouter => "OpenRouter"
  | .FireworksAi => "FireworksAi"
  | .Replicate => "Replicate"
  | .Local => "Local"

/-- The `Error` enum from `src/error.rs`. -/
inductive Error
  | MissingApiKey (s : String)
  | ProviderNotImplemented (s : String)
  | HttpError (s : String)
  | ApiError (s : String)
  | ParseError (s : String)
  | NoChoicesInResponse
  | PromptNotFound (n : Nat)
  | RateLimitExceeded
  | ContextWindowExceeded
  | InvalidConfiguration (s : String)
  | Timeout
  | Other (s : String)
deriving DecidableEq, Repr

/-- `BaseModality` from `src/lib.rs`. -/
inductive BaseModality
  | Text
  | Image
  | Video
  | File
deriving DecidableEq, Repr

/-- `CombinedModality` from `src/lib.rs`. -/
structure CombinedModality where
  modalities : List BaseModality
deriving DecidableEq, Repr

/-- `InputModality` from `src/lib.rs`. -/
inductive InputModality
  | Single (m : BaseModality)
  | Combined (c : CombinedModality)
deriving DecidableEq, Repr

/-- `ModelModalities` from `src/lib.rs`. -/
structure ModelModalities where
  supported : List InputModality
deriving DecidableEq, Repr

/-- `ModelInfo` from `src/lib.rs`.  The two `Option<f32>` cost fields are
carried as rationals: the dispatcher and adapter only store and copy
them, never compute with them. -/
structure ModelInfo where
  mname : String
  max_context_tokens : Nat
  max_response_tokens : Nat
  can_save_context : Bool
  input_modalities : ModelModalities
  supports_streaming : Bool
  supports_tools : Bool
  provider : Provider
  default_system_prompt : Option String
  supported_file_extensions : Option (List String)
  cost_per_million_input_tokens : Option ℚ
  cost_per_million_output_tokens : Option ℚ
  is_available : Bool
deriving DecidableEq, Repr

/-- `default_model_info()` from `src/providers/mistral.rs`. -/
def default_model_info : ModelInfo :=
  { mname := "mistral-small-latest"
  , max_context_tokens := 32000
  , max_response_tokens := 8000
  , can_save_context := false
  , input_modalities := { supported := [InputModality.Single BaseModality.Text] }
  , supports_streaming := true
  , supports_tools := true
  , provider := Provider.MistralAi
  , default_system_prompt := none
  , supported_file_extensions := none
  , cost_per_million_input_tokens := some (14 / 100 : ℚ)
  , cost_per_million_output_tokens := some (42 / 100 : ℚ)
  , is_available := true }

/-- `ApiKeySpec` from `src/lib.rs`: an empty `model` string denotes the
provider's master key. -/
structure ApiKeySpec where
  provider : Provider
  model : String
  key : String
deriving DecidableEq, Repr

/-! ## Failover module (`src/failover.rs`) -/

/-- `FailoverSequence` from `src/failover.rs`: an ordered candidate list
plus a cursor. -/
structure FailoverSequence where
  providers : List (Provider × String)
  current_index : Nat
deriving DecidableEq, Repr

namespace FailoverSequence

/-- `FailoverSequence::new`: cursor starts at 0. -/
def new (providers : List (Provider × String)) : FailoverSequence :=
  { providers := providers, current_index := 0 }

/-- `FailoverSequence::current`: checked access at the cursor
(`self.providers.get(self.current_index)`). -/
def current (s : FailoverSequence) : Option (Provider × String) :=
  s.providers.get? s.current_index

/-- `FailoverSequence::next`: unconditionally increments the cursor, then
returns `current()` of the updated sequence (Rust mutates in place; here
the updated sequence is returned alongside the result). -/
def next (s : FailoverSequence) : Option (Provider × String) × FailoverSequence :=
  let s2 : FailoverSequence := { s with current_index := s.current_index + 1 }
  (s2.current, s2)

/-- `FailoverSequence::has_next`: `current_index + 1 < providers.len()`. -/
def has_next (s : FailoverSequence) : Bool :=
  s.current_index + 1 < s.providers.length

/-- `FailoverSequence::reset`: cursor back to 0. -/
def reset (s : FailoverSequence) : FailoverSequence :=
  { s with current_index := 0 }

end FailoverSequence

/-- Iterate `FailoverSequence.next` k times, keeping the updated state. -/
def nextK (s : FailoverSequence) : Nat → FailoverSequence
  | 0 => s
  | k + 1 => nextK (s.next).2 k

/-- The mutating operations of `FailoverSequence` (`current` and
`has_next` do not change the state). -/
inductive FOp
  | next
  | reset
deriving DecidableEq, Repr

/-- Apply one mutating operation. -/
def applyOp (s : FailoverSequence) : FOp → FailoverSequence
  | .next => (s.next).2
  | .reset => s.reset

/-- Apply a list of mutating operations left to right. -/
def applyOps (s : FailoverSequence) (ops : List FOp) : FailoverSequence :=
  ops.foldl applyOp s

/-- The cursor value determined by an operation history: the number of
`next` calls since the most recent `reset` (or since construction). -/
def cursorAfter (ops : List FOp) : Nat :=
  ops.foldl (fun c op => match op with | FOp.next => c + 1 | FOp.reset => 0) 0

/-! ## Mistral provider adapter (`src/providers/mistral.rs`) -/

/-- Lookup in an association list modelling a Rust `HashMap<String, String>`:
first (most recently inserted) match wins. -/
def lookupStr : List (String × String) → String → Option String
  | [], _ => none
  | e :: rest, k => if e.1 = k then some e.2 else lookupStr rest k

/-- `MistralClientState` from `src/providers/mistral.rs`, without the
`reqwest::Client` handle (network I/O is modelled by the `NetResult`
oracle below). -/
structure MistralClientState where
  master_key : Option String
  model_keys : List (String × String)
deriving DecidableEq, Repr

/-- Outcome of the adapter's HTTP exchange for one `send_prompt` call, as
observed by `handle_send_prompt` after the `reqwest` round trip:
transport failure, non-success status with the error body, undecodable
body, or a decoded body whose choices carry the listed message
contents. -/
inductive NetResult
  | transportErr (msg : String)
  | httpFail (errorText : String)
  | parseErr (msg : String)
  | okChoices (choices : List String)
deriving DecidableEq, Repr

namespace MistralClientState

/-- `MistralClientState::get_api_key`: model-specific key first, then the
master key, else `MissingApiKey("Mistral:{model}")`. -/
def get_api_key (s : MistralClientState) (model : String) : Except Error String :=
  match lookupStr s.model_keys model with
  | some key => Except.ok key
  | none =>
    match s.master_key with
    | some key => Except.ok key
    | none => Except.error (Error.MissingApiKey ("Mistral:" ++ model))

/-- `MistralClientState::handle_send_prompt` with the HTTP round trip
abstracted into a `NetResult` oracle: resolve the key (failing before any
network activity when none exists), then map the network outcome exactly
as the source does. -/
def handle_send_prompt (s : MistralClientState) (prompt model : String)
    (net : NetResult) : Except Error String :=
  match s.get_api_key model with
  | Except.error e => Except.error e
  | Except.ok _ =>
    match net with
    | NetResult.transportErr msg => Except.error (Error.HttpError msg)
    | NetResult.httpFail errorText =>
        Except.error (Error.ApiError ("Mistral error: " ++ errorText))
    | NetResult.parseErr msg => Except.error (Error.ParseError msg)
    | NetResult.okChoices choices =>
        match choices.head? with
        | some c => Except.ok c
        | none => Except.error Error.NoChoicesInResponse

end MistralClientState

/-! ## Backend dispatcher (`src/client.rs`) -/

/-- `AllmBackendState` from `src/client.rs`; the `mistral_client` field is
an actor handle, represented here by the forwarding events the
dispatcher emits (see `Event`).  The `api_keys` hash map is an
association list with newest-first shadowing. -/
structure AllmBackendState where
  current_model : Provider × ModelInfo
  api_keys : List ((Provider × String) × String)
  fallback_preferences : List (Provider × String)
deriving DecidableEq, Repr

/-- Lookup in the dispatcher's `api_keys` map. -/
def lookupKey : List ((Provider × String) × String) → Provider × String → Option String
  | [], _ => none
  | e :: rest, pm => if e.1 = pm then some e.2 else lookupKey rest pm

/-- `AllmBackendState::new`: current model is Mistral with the default
model info; empty key store; empty fallback preferences. -/
def AllmBackendState.new : AllmBackendState :=
  { current_model := (Provider.MistralAi, default_model_info)
  , api_keys := []
  , fallback_preferences := [] }

/-- The `for key_spec in cmd.keys { state.api_keys.insert(...) }` loop of
the SetApiKeys handler: upsert each spec under `(provider, model)`. -/
def insertKeys (m : List ((Provider × String) × String)) (ks : List ApiKeySpec) :
    List ((Provider × String) × String) :=
  ks.foldl (fun acc spec => ((spec.provider, spec.model), spec.key) :: acc) m

/-- The commands drained by `run_backend_loop`'s five queues. -/
inductive Command
  | sendPrompt (prompt : String) (model : String)
  | setApiKeys (keys : List ApiKeySpec)
  | getModelLists
  | killProcess
  | setModelFallbackPreference (prefs : List (Provider × String))
deriving DecidableEq, Repr

/-- A reply written to some caller's reply conduit. -/
inductive Reply
  | sendPromptR (r : Except Error String)
  | setApiKeysR (r : Except Error Unit)
  | getModelListsR (r : Except Error (List (Provider × String)))
  | killProcessR (r : Except Error Unit)
  | setModelFallbackPreferenceR (r : Except Error Unit)

/-- Externally visible effects of one dispatcher step: enqueueing a
`MistralCommand::SendPrompt` on the Mistral adapter's queue (carrying the
caller's reply conduit), or writing a reply directly. -/
inductive Event
  | forwardToMistral (prompt : String) (model : String)
  | reply (r : Reply)

/-- One turn of `run_backend_loop`'s select loop: the state update and
the events emitted while handling a single command. -/
def step (s : AllmBackendState) : Command → AllmBackendState × List Event
  | Command.sendPrompt prompt model =>
      if s.current_model.1 = Provider.MistralAi then
        (s, [Event.forwardToMistral prompt model])
      else
        (s, [Event.reply (Reply.sendPromptR (Except.error
               (Error.ProviderNotImplemented s.current_model.1.name)))])
  | Command.setApiKeys keys =>
      ({ s with api_keys := insertKeys s.api_keys keys },
       [Event.reply (Reply.setApiKeysR (Except.ok ()))])
  | Command.getModelLists =>
      (s, [Event.reply (Reply.getModelListsR (Except.ok []))])
  | Command.killProcess =>
      (s, [Event.reply (Reply.killProcessR (Except.ok ()))])
  | Command.setModelFallbackPreference prefs =>
      ({ s with fallback_preferences := prefs },
       [Event.reply (Reply.setModelFallbackPreferenceR (Except.ok ()))])

/-- Whether a command is the shutdown command, which breaks the loop. -/
def isKill : Command → Bool
  | Command.killProcess => true
  | _ => false

/-- Run the dispatcher loop over a command list; `KillProcess` replies and
then breaks, leaving later commands unprocessed. -/
def run (s : AllmBackendState) : List Command → AllmBackendState
  | [] => s
  | c :: cs => if isKill c then s else run (step s c).1 cs

/-- All events emitted while running a command list (the shutdown reply
included when the loop breaks). -/
def trace (s : AllmBackendState) : List Command → List Event
  | [] => []
  | c :: cs =>
      if isKill c then (step s c).2
      else (step s c).2 ++ trace (step s c).1 cs

/-- The replies the Mistral adapter loop writes to the caller conduits of
the forwarded prompts (and any direct `SendPrompt` replies), with the
adapter state and network outcome fixed: `run_mistral_loop` processes
each queued `SendPrompt` by calling `handle_send_prompt` and sending the
result on the carried conduit. -/
def callerReplies (mc : MistralClientState) (net : NetResult) :
    List Event → List (Except Error String)
  | [] => []
  | Event.forwardToMistral prompt model :: rest =>
      mc.handle_send_prompt prompt model net :: callerReplies mc net rest
  | Event.reply (Reply.sendPromptR r) :: rest => r :: callerReplies mc net rest
  | Event.reply _ :: rest => callerReplies mc net rest

/-- Whether a command is a SetApiKeys command. -/
def isSetKeys : Command → Bool
  | Command.setApiKeys _ => true
  | _ => false

/-- Whether a command is one whose reply the noninterference statement
observes (SendPrompt and GetModelLists). -/
def isObs : Command → Bool
  | Command.sendPrompt _ _ => true
  | Command.getModelLists => true
  | _ => false

/-- The events emitted for the observed commands while running a command
list (SendPrompt forwards or replies, and GetModelLists replies). -/
def obsTrace (s : AllmBackendState) : List Command → List Event
  | [] => []
  | c :: cs =>
      if isKill c then []
      else (if isObs c then (step s c).2 else []) ++ obsTrace (step s c).1 cs

/-- The observed events of a single command as a function of the current
provider alone. -/
def stepObs (p : Provider) : Command → List Event
  | Command.sendPrompt prompt model =>
      if p = Provider.MistralAi then [Event.forwardToMistral prompt model]
      else [Event.reply (Reply.sendPromptR (Except.error
             (Error.ProviderNotImplemented p.name)))]
  | Command.getModelLists => [Event.reply (Reply.getModelListsR (Except.ok []))]
  | _ => []

/-- Observed events of a command list, computed from the current provider
alone (no key store). -/
def obsTraceP (p : Provider) : List Command → List Event
  | [] => []
  | c :: cs => if isKill c then [] else stepObs p c ++ obsTraceP p cs

/-- Fold a list of key specs over an accumulated lookup result: the value
of the most recently set spec for the given `(provider, model)` key, or
the accumulator when no spec targets it.  This is the specification-side
description of `SetApiKeys` ("the most recently set value wins"). -/
def lastKeyFrom (acc : Option String) (ks : List ApiKeySpec) (pm : Provider × String) :
    Option String :=
  ks.foldl (fun a spec => if (spec.provider, spec.model) = pm then some spec.key else a) acc

/-- First-of-two option choice, used to state the adapter's key
precedence (model-specific key shadows the master key). -/
def orElseOpt (a b : Option String) : Option String :=
  match a with
  | some x => some x
  | none => b

/-- A backend state whose current provider is OpenAI, for which no
adapter is registered (`run_backend_loop` only routes to the Mistral
client). -/
def openAIState : AllmBackendState :=
  { AllmBackendState.new with current_model := (Provider.OpenAI, default_model_info) }

/-! ## Helper lemmas -/

lemma nextK_current_index (k : Nat) :
    ∀ s : FailoverSequence, (nextK s k).current_index = s.current_index + k := by
  induction k with
  | zero => intro s; rfl
  | succ k ih =>
      intro s
      show (nextK (s.next).2 k).current_index = _
      rw [ih]
      show s.current_index + 1 + k = s.current_index + (k + 1)
      omega

lemma applyOps_spec (ops : List FOp) :
    ∀ s : FailoverSequence,
      applyOps s ops =
        { providers := s.providers
        , current_index :=
            ops.foldl (fun c op => match op with | FOp.next => c + 1 | FOp.reset => 0)
              s.current_index } := by
  induction ops with
  | nil => intro s; rfl
  | cons op rest ih =>
      intro s
      cases op with
      | next =>
          show applyOps (s.next).2 rest = _
          rw [ih]
          rfl
      | reset =>
          show applyOps s.reset rest = _
          rw [ih]
          rfl

lemma lookupKey_insertKeys (ks : List ApiKeySpec) :
    ∀ (m : List ((Provider × String) × String)) (pm : Provider × String),
      lookupKey (insertKeys m ks) pm = lastKeyFrom (lookupKey m pm) ks pm := by
  induction ks with
  | nil => intro m pm; rfl
  | cons spec rest ih =>
      intro m pm
      show lookupKey (insertKeys (((spec.provider, spec.model), spec.key) :: m) rest) pm = _
      rw [ih]
      rfl

lemma run_setKeys (batches : List (List ApiKeySpec)) :
    ∀ (s : AllmBackendState) (pm : Provider × String),
      lookupKey (run s (batches.map Command.setApiKeys)).api_keys pm
        = lastKeyFrom (lookupKey s.api_keys pm) batches.flatten pm := by
  induction batches with
  | nil => intro s pm; rfl
  | cons ks rest ih =>
      intro s pm
      show lookupKey (run (step s (Command.setApiKeys ks)).1 (rest.map Command.setApiKeys)).api_keys pm = _
      rw [ih]
      show lastKeyFrom (lookupKey (insertKeys s.api_keys ks) pm) rest.flatten pm = _
      rw [lookupKey_insertKeys]
      show (rest.flatten).foldl _ ((ks.foldl _ (lookupKey s.api_keys pm))) = (ks ++ rest.flatten).foldl _ _
      rw [List.foldl_append]

lemma trace_setKeys (batches : List (List ApiKeySpec)) :
    ∀ s : AllmBackendState,
      trace s (batches.map Command.setApiKeys)
        = batches.map (fun _ => Event.reply (Reply.setApiKeysR (Except.ok ()))) := by
  induction batches with
  | nil => intro s; rfl
  | cons ks rest ih =>
      intro s
      show (step s (Command.setApiKeys ks)).2
          ++ trace (step s (Command.setApiKeys ks)).1 (rest.map Command.setApiKeys) = _
      rw [ih]
      rfl

lemma step_current_model (s : AllmBackendState) (c : Command) :
    (step s c).1.current_model = s.current_model := by
  cases c with
  | sendPrompt prompt model =>
      by_cases h : s.current_model.1 = Provider.MistralAi <;> simp [step, h]
  | setApiKeys ks => rfl
  | getModelLists => rfl
  | killProcess => rfl
  | setModelFallbackPreference prefs => rfl

lemma run_current_model (cmds : List Command) :
    ∀ s : AllmBackendState, (run s cmds).current_model = s.current_model := by
  induction cmds with
  | nil => intro s; rfl
  | cons c cs ih =>
      intro s
      cases hk : isKill c with
      | true =>
          show (if isKill c then s else run (step s c).1 cs).current_model = _
          rw [hk]
          rfl
      | false =>
          show (if isKill c then s else run (step s c).1 cs).current_model = _
          rw [hk]
          simp only [Bool.false_eq_true, if_false]
          rw [ih, step_current_model]

lemma obsTrace_eq (cmds : List Command) :
    ∀ s : AllmBackendState,
      obsTrace s cmds = obsTraceP s.current_model.1 (cmds.filter (fun c => !isSetKeys c)) := by
  induction cmds with
  | nil => intro s; rfl
  | cons c cs ih =>
      intro s
      cases c with
      | sendPrompt prompt model =>
          show (if isObs (Command.sendPrompt prompt model)
                  then (step s (Command.sendPrompt prompt model)).2 else [])
              ++ obsTrace (step s (Command.sendPrompt prompt model)).1 cs = _
          rw [ih]
          rw [step_current_model]
          by_cases h : s.current_model.1 = Provider.MistralAi <;>
            simp [step, stepObs, obsTraceP, isObs, isKill, isSetKeys, h, List.filter]
      | setApiKeys ks =>
          show ([] : List Event) ++ obsTrace (step s (Command.setApiKeys ks)).1 cs = _
          rw [ih]
          rw [step_current_model]
          simp [isSetKeys, List.filter]
      | getModelLists =>
          show (if isObs Command.getModelLists
                  then (step s Command.getModelLists).2 else [])
              ++ obsTrace (step s Command.getModelLists).1 cs = _
          rw [ih]
          rw [step_current_model]
          simp [step, stepObs, obsTraceP, isObs, isKill, isSetKeys, List.filter]
      | killProcess =>
          show obsTrace s (Command.killProcess :: cs) = _
          simp [obsTrace, obsTraceP, isKill, isSetKeys, List.filter]
      | setModelFallbackPreference prefs =>
          show ([] : List Event)
              ++ obsTrace (step s (Command.setModelFallbackPreference prefs)).1 cs = _
          rw [ih]
          rw [step_current_model]
          simp [stepObs, obsTraceP, isObs, isKill, isSetKeys, List.filter]

/-! ## Claim theorems -/

/-- C3 counterexample: on the 1-candidate sequence, one call of `next()`
moves the cursor to 1, not to `min 1 (1 - 1) = 0` as the claim states:
`next()` increments the cursor unconditionally, past the last index. -/
theorem failover_next_min_claim_cex :
    ¬ ((nextK (FailoverSequence.new [(Provider.MistralAi, "m1")]) 1).current_index
        = min 1 ([(Provider.MistralAi, "m1")].length - 1)) := by
  decide

/-- C3 (amended): `next()` called k times on any sequence advances the
cursor to exactly k (with `current()` returning `none` once k reaches the
candidate count); `has_next()` is false exactly when `cursor + 1 ≥ n`;
`reset()` restores the cursor to 0 regardless of prior state. -/
theorem failover_sequence_cursor_ops (ps : List (Provider × String)) (k : Nat)
    (s : FailoverSequence) :
    (nextK (FailoverSequence.new ps) k).current_index = k
    ∧ (s.has_next = false ↔ s.providers.length ≤ s.current_index + 1)
    ∧ s.reset.current_index = 0 := by
  refine ⟨?_, ?_, rfl⟩
  · rw [nextK_current_index]
    show 0 + k = k
    omega
  · simp [FailoverSequence.has_next, Nat.not_lt]

/-- C4 counterexample: after a single `next()` on the 1-candidate
sequence — a reachable state — the candidate list is non-empty yet the
cursor (1) is not a valid index into it. -/
theorem failover_cursor_invariant_cex :
    (applyOps (FailoverSequence.new [(Provider.MistralAi, "m1")]) [FOp.next]).providers ≠ []
    ∧ ¬ ((applyOps (FailoverSequence.new [(Provider.MistralAi, "m1")]) [FOp.next]).current_index
        < (applyOps (FailoverSequence.new [(Provider.MistralAi, "m1")]) [FOp.next]).providers.length) := by
  decide

/-- C4 (amended): in every state reachable by new/next/reset (`current`
and `has_next` do not mutate), the candidate list is the constructor's
list and the cursor equals the number of `next()` calls since the most
recent `reset()` (or since construction); hence the cursor is a valid
index exactly when that count is below the candidate count — it is not
always a valid index, but out-of-range cursors are only observed through
the checked access `current()`, which returns `none` there. -/
theorem failover_cursor_reachable (ps : List (Provider × String)) (ops : List FOp) :
    (applyOps (FailoverSequence.new ps) ops).providers = ps
    ∧ (applyOps (FailoverSequence.new ps) ops).current_index = cursorAfter ops
    ∧ ((applyOps (FailoverSequence.new ps) ops).current_index < ps.length
        ↔ cursorAfter ops < ps.length) := by
  rw [applyOps_spec]
  exact ⟨rfl, rfl, Iff.rfl⟩

/-- C1: the dispatcher performs no failover.  Handling a SendPrompt
leaves the state (fallback preferences included) untouched, and the
caller receives exactly one reply: the Mistral adapter's outcome
verbatim — a retryable error (rate limit, transient HTTP error, timeout)
included — or the provider-not-implemented error.  No backoff is
computed, no candidate is advanced, and the prompt is never
resubmitted. -/
theorem send_prompt_single_attempt (s : AllmBackendState) (mc : MistralClientState)
    (prompt model : String) (net : NetResult) :
    (step s (Command.sendPrompt prompt model)).1 = s
    ∧ callerReplies mc net (step s (Command.sendPrompt prompt model)).2
      = [if s.current_model.1 = Provider.MistralAi
          then mc.handle_send_prompt prompt model net
          else Except.error (Error.ProviderNotImplemented s.current_model.1.name)] := by
  by_cases h : s.current_model.1 = Provider.MistralAi <;>
    simp [step, callerReplies, h]

/-- C2: the GetModelLists handler replies `Ok(vec![])` unconditionally —
it never queries any adapter, so the reply is the empty list even when a
registered adapter holds a live credential. -/
theorem get_model_lists_always_empty (s : AllmBackendState) :
    step s Command.getModelLists
      = (s, [Event.reply (Reply.getModelListsR (Except.ok []))]) := rfl

/-- C6: a SendPrompt processed while the current provider is not the
(only registered) Mistral adapter is answered immediately with a
`ProviderNotImplemented` error naming that provider, with no forwarding
event to any adapter and no state change. -/
theorem send_prompt_provider_not_implemented (s : AllmBackendState)
    (prompt model : String) (h : s.current_model.1 ≠ Provider.MistralAi) :
    step s (Command.sendPrompt prompt model)
      = (s, [Event.reply (Reply.sendPromptR (Except.error
           (Error.ProviderNotImplemented s.current_model.1.name)))]) := by
  simp [step, h]

/-- C6 witness: with the current provider set to OpenAI, SendPrompt is
answered with `ProviderNotImplemented("OpenAI")`. -/
theorem send_prompt_provider_not_implemented_witness :
    step openAIState (Command.sendPrompt "p" "m")
      = (openAIState, [Event.reply (Reply.sendPromptR (Except.error
           (Error.ProviderNotImplemented "OpenAI")))]) :=
  send_prompt_provider_not_implemented openAIState "p" "m" (by decide)

/-- C7: the Mistral adapter's key resolution prefers the model-specific
override over the master key and yields the `Ok` key accordingly; when
neither exists it fails with `MissingApiKey("Mistral:{model}")`, and in
that case `handle_send_prompt` returns that error whatever the network
would have answered (the failure is surfaced before any HTTP activity). -/
theorem mistral_key_resolution (s : MistralClientState) (prompt model : String)
    (net : NetResult) :
    s.get_api_key model
      = (match orElseOpt (lookupStr s.model_keys model) s.master_key with
         | some k => Except.ok k
         | none => Except.error (Error.MissingApiKey ("Mistral:" ++ model)))
    ∧ (orElseOpt (lookupStr s.model_keys model) s.master_key = none →
        s.handle_send_prompt prompt model net
          = Except.error (Error.MissingApiKey ("Mistral:" ++ model))) := by
  constructor
  · cases h : lookupStr s.model_keys model <;>
      cases hm : s.master_key <;>
      simp [MistralClientState.get_api_key, orElseOpt, h, hm]
  · intro hnone
    cases h : lookupStr s.model_keys model with
    | some k => simp [orElseOpt, h] at hnone
    | none =>
        cases hm : s.master_key with
        | some k => simp [orElseOpt, h, hm] at hnone
        | none =>
            simp [MistralClientState.handle_send_prompt,
              MistralClientState.get_api_key, h, hm]

/-- C7 witness: with no model-specific key and no master key, the
adapter's send path yields `MissingApiKey("Mistral:m")` even though the
network outcome would have been a successful choice. -/
theorem mistral_key_resolution_witness :
    MistralClientState.handle_send_prompt ⟨none, []⟩ "p" "m" (NetResult.okChoices ["hi"])
      = Except.error (Error.MissingApiKey ("Mistral:" ++ "m")) :=
  (mistral_key_resolution ⟨none, []⟩ "p" "m" (NetResult.okChoices ["hi"])).2 rfl

/-- C5: across any sequence of SetApiKeys commands run from the fresh
backend state, the key store maps `(provider, model)` to the most
recently set value for exactly that pair (so a model-specific entry and
the provider's master entry — model name `""` — never overwrite each
other), and every SetApiKeys command is answered with a single success
reply after its entries are applied. -/
theorem set_api_keys_store_semantics (batches : List (List ApiKeySpec))
    (p : Provider) (m : String) :
    lookupKey (run AllmBackendState.new (batches.map Command.setApiKeys)).api_keys (p, m)
      = lastKeyFrom none batches.flatten (p, m)
    ∧ trace AllmBackendState.new (batches.map Command.setApiKeys)
      = batches.map (fun _ => Event.reply (Reply.setApiKeysR (Except.ok ()))) := by
  refine ⟨?_, trace_setKeys batches AllmBackendState.new⟩
  rw [run_setKeys]
  rfl

/-- C9: over every command sequence, the dispatcher's `current_model`
stays the construction value `(MistralAi, default_model_info)` — no
handler mutates it — and therefore a SendPrompt processed in any
reachable state is forwarded to the Mistral adapter, whatever model name
it carries. -/
theorem current_model_constant (cmds : List Command) (prompt model : String) :
    (run AllmBackendState.new cmds).current_model
      = (Provider.MistralAi, default_model_info)
    ∧ (step (run AllmBackendState.new cmds) (Command.sendPrompt prompt model)).2
      = [Event.forwardToMistral prompt model] := by
  have h := run_current_model cmds AllmBackendState.new
  refine ⟨h.trans rfl, ?_⟩
  have h1 : (run AllmBackendState.new cmds).current_model.1 = Provider.MistralAi := by
    rw [h]
    rfl
  simp [step, h1]

/-- C10: the dispatcher's `api_keys` store is write-only.  Two command
sequences that agree after erasing their SetApiKeys commands produce
identical observable events for every SendPrompt and GetModelLists
command (forwards to the adapter and direct replies), and hence identical
caller-visible SendPrompt replies for any fixed adapter state and
network behaviour: keys set through the dispatcher never reach the
adapter nor influence any reply. -/
theorem api_keys_noninterference (cmds1 cmds2 : List Command)
    (mc : MistralClientState) (net : NetResult)
    (h : cmds1.filter (fun c => !isSetKeys c) = cmds2.filter (fun c => !isSetKeys c)) :
    obsTrace AllmBackendState.new cmds1 = obsTrace AllmBackendState.new cmds2
    ∧ callerReplies mc net (obsTrace AllmBackendState.new cmds1)
      = callerReplies mc net (obsTrace AllmBackendState.new cmds2) := by
  have e1 := obsTrace_eq cmds1 AllmBackendState.new
  have e2 := obsTrace_eq cmds2 AllmBackendState.new
  have etrace : obsTrace AllmBackendState.new cmds1 = obsTrace AllmBackendState.new cmds2 := by
    rw [e1, e2, h]
  exact ⟨etrace, by rw [etrace]⟩

/-- C10 witness: a run that first sets a Mistral key then sends a prompt
is observationally identical to the run that only sends the prompt. -/
theorem api_keys_noninterference_witness :
    obsTrace AllmBackendState.new
        [Command.setApiKeys [⟨Provider.MistralAi, "mistral-small", "k1"⟩],
         Command.sendPrompt "hello" "mistral-small"]
      = obsTrace AllmBackendState.new [Command.sendPrompt "hello" "mistral-small"] :=
  (api_keys_noninterference
    [Command.setApiKeys [⟨Provider.MistralAi, "mistral-small", "k1"⟩],
     Command.sendPrompt "hello" "mistral-small"]
    [Command.sendPrompt "hello" "mistral-small"]
    ⟨none, []⟩ (NetResult.okChoices []) (by decide)).1

end Allm
